import Mathlib

/-!
Verification of the `ai-test-cli` unit-test-generator CLI.

The development shallowly embeds the Python sources of the repository
(`test_generator/generator.py`, `test_generator/generators.py`,
`test_generator/test_processor.py`, `test_generator/main.py`,
`test_generator/settings.py`).  Python strings are modelled as `List Char`
(the type `Str` below); I/O and network effects are modelled by explicit
environment records, so every operation is a pure Lean function over the
environment.  The repository also contains an older revision of the same
program under `src/`; unless noted otherwise the definitions below embed
the current revision at the repository top level.
-/

/-- Python strings are modelled as lists of characters. -/
abbrev Str := List Char

/-- `leadsWith n s` holds when `n` is a prefix of `s` (Boolean version,
used to model substring search on Python strings). -/
def leadsWith : Str → Str → Bool
  | [], _ => true
  | _ :: _, [] => false
  | a :: n, b :: s => a == b && leadsWith n s

/-- `endsWith n s` holds when `n` is a suffix of `s`. -/
def endsWith (n s : Str) : Bool := leadsWith n.reverse s.reverse

/-- Number of (possibly overlapping) occurrences of a nonempty pattern `n`
in `s`: the number of positions of `s` at which `n` starts. -/
def countOccs (n : Str) : Str → Nat
  | [] => 0
  | c :: s => (if leadsWith n (c :: s) then 1 else 0) + countOccs n s

/-- Python `sep.join(parts)`. -/
def pyJoin (sep : Str) : List Str → Str
  | [] => []
  | [x] => x
  | x :: xs => x ++ sep ++ pyJoin sep xs

/-- The ASCII whitespace characters stripped by Python `str.strip()`
(space, tab, newline, carriage return, vertical tab, form feed). -/
def isPySpace (c : Char) : Bool :=
  c == ' ' || c == '\t' || c == '\n' || c == '\r' || c == '\x0b' || c == '\x0c'

/-- Python `str.strip()` restricted to ASCII whitespace. -/
def pyStrip (s : Str) : Str :=
  ((s.dropWhile isPySpace).reverse.dropWhile isPySpace).reverse

/-- Python `text.split('\n')`: splits a string at every newline; always
returns at least one (possibly empty) line. -/
def splitNl : Str → List Str
  | [] => [[]]
  | c :: s =>
    if c = '\n' then [] :: splitNl s
    else
      match splitNl s with
      | [] => [[c]]
      | l :: ls => (c :: l) :: ls

/-- Python `'\n'.join(lines)`, the inverse of `splitNl`. -/
def joinNl : List Str → Str
  | [] => []
  | [l] => l
  | l :: ls => l ++ '\n' :: joinNl ls

/-- Characters counted as indentation by `textwrap.dedent` (its regexes
only treat spaces and tabs as margin characters). -/
def isIndentChar (c : Char) : Bool := c == ' ' || c == '\t'

/-- First phase of `textwrap.dedent`: lines consisting solely of spaces
and tabs are normalized to empty lines
(`_whitespace_only_re.sub('', text)`). -/
def blankWs (l : Str) : Str := if l.all isIndentChar then [] else l

/-- The leading space-and-tab run of a line, as captured by
`textwrap.dedent`'s `_leading_whitespace_re`. -/
def leadingWs (l : Str) : Str := l.takeWhile isIndentChar

/-- Longest common prefix of two strings; `textwrap.dedent` folds this
over the indents of all content lines to compute the common margin. -/
def commonPfx : Str → Str → Str
  | a :: x, b :: y => if a == b then a :: commonPfx x y else []
  | _, _ => []

/-- The common margin `textwrap.dedent` computes from the indents of the
lines that still have content after whitespace-only lines were blanked. -/
def dedentMargin (ls : List Str) : Str :=
  match (ls.filter (fun l => !l.isEmpty)).map leadingWs with
  | [] => []
  | m :: ms => ms.foldl commonPfx m

/-- `textwrap.dedent`: blank the whitespace-only lines, compute the common
margin of the remaining lines, and strip that margin from the start of
every line that carries it. -/
def pyDedent (s : Str) : Str :=
  let ls := (splitNl s).map blankWs
  let margin := dedentMargin ls
  joinNl (ls.map (fun l => if leadsWith margin l then l.drop margin.length else l))

/-! The fixed text of the prompt template of `Generator.__create_prompt`
(`test_generator/generator.py`, inside `textwrap.dedent(f...)`), byte for
byte as it stands in the source before dedenting: every template line
carries the 12-space indentation of the Python source (bullet lines carry
15 spaces) and one line ends with a trailing space after `programming
language.`.  The text is cut at the four interpolation points into the
five constants `tmplA`..`tmplE`; the larger pieces are further cut at
line boundaries into chunks (`tmplA1`, ...) and reassembled by list
append, so that each chunk stays small enough for kernel evaluation. -/

/-- Chunk 1 of `tmplA`. -/
def tmplA1 : Str := (
  "\n" ++
  "            You are an AI model designed to help write unit tests for a provided class. The user will supply one or two pieces of information:\n" ++
  "            1. A class for which unit tests need to be written.\n" ++
  "            2. (Optional) An example unit tests class that demonstrates the structure and style of the tests.\n" ++
  "            3. (Optional) The contextual code to better understand the class from point 1.\n" ++
  "\n"
  ).data

/-- Chunk 2 of `tmplA`. -/
def tmplA2 : Str := (
  "            Your task is to generate unit tests for the provided class. If an example unit tests class is provided, ensure that the tests adhere to the same style, structure, and level of detail as the example. Additionally, use the Given-When-Then format to explain each test case and ensure that edge cases are considered. Follow best practices for writing tests, ensuring the generated code is clean and easy for developers to read.\n" ++
  "            \n" ++
  "            **Instructions:**\n" ++
  "            \n" ++
  "            1. Detect the programming language of the provided class.\n"
  ).data

/-- Chunk 3 of `tmplA`. -/
def tmplA3 : Str := (
  "            2. Analyze the provided class to understand its methods and functionalities.\n" ++
  "            3. (If provided) Review the example unit tests class to understand its structure, naming conventions, and testing approach.\n" ++
  "            4. Write unit tests for the provided class, ensuring each method is adequately tested, including edge cases.\n" ++
  "            5. Use the Given-When-Then format to explain each test:\n" ++
  "               - **Given**: The initial context or state.\n" ++
  "               - **When**: The action or event that triggers the behavior.\n"
  ).data

/-- Chunk 4 of `tmplA`. -/
def tmplA4 : Str := (
  "               - **Then**: The expected outcome or result.\n" ++
  "            6. Use appropriate libraries, frameworks, and patterns from the detected programming language to write the tests.\n" ++
  "            7. Follow best practices for writing unit tests, including:\n" ++
  "               - Clear naming conventions\n" ++
  "               - Proper use of setup and teardown methods\n" ++
  "               - Comprehensive assertions\n" ++
  "               - Test isolation (ensure tests don\'t depend on each other)\n" ++
  "               - Efficient test design to avoid unnecessarily slow tests\n"
  ).data

/-- Chunk 5 of `tmplA`. -/
def tmplA5 : Str := (
  "            8. Implement mocking and dependency injection where necessary to isolate the unit under test.\n" ++
  "            9. Use parameterized tests when appropriate to test multiple scenarios with the same test logic.\n" ++
  "            10. Aim for high code coverage (e.g., 80% or higher) and include a comment in the code about the estimated coverage achieved.\n" ++
  "            11. Add code comments to explain complex test setups or assertions.\n" ++
  "            12. Include tests for error scenarios and exception handling.\n"
  ).data

/-- Chunk 6 of `tmplA`. -/
def tmplA6 : Str := (
  "            13. Consider how the tests would run in a Continuous Integration (CI) environment and add any necessary setup or configuration as code or configuration files.\n" ++
  "            14. Ensure the tests are clear, readable, and maintain consistency.\n" ++
  "            15. Include necessary imports, setup methods, and assertions. If an example unit tests class is provided, follow its conventions.\n" ++
  "            \n" ++
  "            **Additional instructions:**\n" ++
  "            "
  ).data

/-- Template text that precedes the `{self.instruction}` interpolation point. -/
def tmplA : Str :=
  tmplA1 ++ (tmplA2 ++ (tmplA3 ++ (tmplA4 ++ (tmplA5 ++ (tmplA6)))))

/-- Template text that lies between `{self.instruction}` and `{self.class_code}`. -/
def tmplB : Str := (
  "\n" ++
  "            \n" ++
  "            **Example:**\n" ++
  "            \n" ++
  "            - **Provided Class:**\n" ++
  "            ```\n" ++
  "            "
  ).data

/-- Template text that lies between `{self.class_code}` and `{self.context_code}`. -/
def tmplC : Str := (
  "\n" ++
  "            ```\n" ++
  "            \n" ++
  "            - **(Optional) Contextual code:**\n" ++
  "            ```\n" ++
  "            "
  ).data

/-- Template text that lies between `{self.context_code}` and `{self.sample}`. -/
def tmplD : Str := (
  "\n" ++
  "            ```\n" ++
  "            \n" ++
  "            - **(Optional) Example Unit Tests Class:**\n" ++
  "            ```\n" ++
  "            "
  ).data

/-- Chunk 1 of `tmplE`. -/
def tmplE1 : Str := (
  "\n" ++
  "            ```\n" ++
  "            \n" ++
  "            **Output:**\n" ++
  "            \n" ++
  "            Generate a unit tests class for the provided class, and if an example is provided, format it similarly to the example unit tests class. Include Given-When-Then explanations for each test case as code comments, covering both typical scenarios and edge cases. Ensure the code follows best practices, is clean, and easy to read. Use the appropriate libraries and patterns from the detected programming language. \n" ++
  "            \n"
  ).data

/-- Chunk 2 of `tmplE`. -/
def tmplE2 : Str := (
  "            The output should contain ONLY the following, without any additional explanation or comments from the AI:\n" ++
  "            1. The complete code for the unit tests, including imports and any necessary setup.\n" ++
  "            2. A code comment about the estimated code coverage achieved.\n" ++
  "            3. Any necessary setup or configuration for running in a CI environment, as code or configuration files.\n" ++
  "            4. Code comments explaining complex test setups or assertions.\n" ++
  "            \n"
  ).data

/-- Chunk 3 of `tmplE`. -/
def tmplE3 : Str := (
  "            Ensure that the generated tests are isolated, efficient, and cover error scenarios. Use mocking and dependency injection where appropriate, and implement parameterized tests for multiple similar scenarios. Do not include any text or explanations outside of the code and code comments.\n" ++
  "            "
  ).data

/-- Template text that follows `{self.sample}`, up to the end of the f-string. -/
def tmplE : Str :=
  tmplE1 ++ (tmplE2 ++ (tmplE3))

/-- The `Union[List[str], str, None]` values accepted by `Generator.__init__`
for `context_code` and `instruction`. -/
inductive StrInput where
  | noneV : StrInput
  | strV : Str → StrInput
  | listV : List Str → StrInput

/-- `Generator._process_input` (`test_generator/generator.py`): a non-empty
list is joined with the separator; a string that is non-blank (its
`strip()` is truthy) is returned unchanged; anything else gives the
default. -/
def processInput : StrInput → Str → Str → Str
  | .listV l, sep, dflt => if l.isEmpty then dflt else pyJoin sep l
  | .strV s, _, dflt => if (pyStrip s).isEmpty then dflt else s
  | .noneV, _, dflt => dflt

/-- The placeholder used for an absent example (`Generator.__init__`). -/
def examplePlaceholder : Str := "No example provided.".data

/-- The placeholder used for absent contextual code (`Generator.__init__`). -/
def contextPlaceholder : Str := "No contextual code provided.".data

/-- The placeholder used for absent instructions (`Generator.__init__`). -/
def instructionPlaceholder : Str := "No additional instruction provided.".data

/-- The per-invocation inputs of `Generator.__init__`
(`test_generator/generator.py`): the subject class code, the optional
context code, the optional extra instructions and the optional example
tests (`sample`).  The spec calls this value a `GenerationRequest`. -/
structure GenerationRequest where
  class_code : Str
  context_code : StrInput
  instruction : StrInput
  sample : Option Str

/-- `self.context_code` as computed by `Generator.__init__`. -/
def contextComponent (r : GenerationRequest) : Str :=
  processInput r.context_code "\n".data contextPlaceholder

/-- `self.instruction` as computed by `Generator.__init__`. -/
def instructionComponent (r : GenerationRequest) : Str :=
  processInput r.instruction ", ".data instructionPlaceholder

/-- `self.sample` as computed by `Generator.__init__`: Python
`sample or "No example provided."`, so both `None` and the empty string
fall back to the placeholder. -/
def sampleComponent (r : GenerationRequest) : Str :=
  match r.sample with
  | none => examplePlaceholder
  | some s => if s.isEmpty then examplePlaceholder else s

/-- The f-string body of `Generator.__create_prompt` before
`textwrap.dedent`: the fixed template pieces with the four processed
fields interpolated in order. -/
def promptBody (instr classCode ctx smp : Str) : Str :=
  tmplA ++ (instr ++ (tmplB ++ (classCode ++ (tmplC ++ (ctx ++ (tmplD ++ (smp ++ tmplE)))))))

/-- `Generator.__create_prompt`: interpolate the processed fields into the
template and apply `textwrap.dedent`. -/
def createPrompt (r : GenerationRequest) : Str :=
  pyDedent (promptBody (instructionComponent r) r.class_code (contextComponent r) (sampleComponent r))

/-- No occurrence of the pattern `n` can straddle the boundary between `a`
and `b`: there is no split `n = n.take k ++ n.drop k` with the left part a
suffix of `a` and the right part a prefix of `b`. -/
def NoSpan (n a b : Str) : Prop :=
  ∀ k, 0 < k → k < n.length →
    ¬(endsWith (n.take k) a = true ∧ leadsWith (n.drop k) b = true)

/-- Decidable sufficient condition for `NoSpan n a b` for every `b`: no
nonempty proper prefix of the pattern is a suffix of `a`. -/
def noSpanChk (n a : Str) : Bool :=
  (List.range n.length).all (fun k => k == 0 || !(endsWith (n.take k) a))

/-- A pattern suitable for counting through `textwrap.dedent`: nonempty
and not starting with a space or tab. -/
def goodPat (n : Str) : Bool :=
  match n with
  | [] => false
  | c :: _ => !isIndentChar c

/-- A concrete request used to witness C1. -/
def witReqC1 : GenerationRequest :=
  { class_code := "class Foo".data, context_code := .noneV,
    instruction := .noneV, sample := none }

/-- A concrete request used to witness C2. -/
def witReqC2 : GenerationRequest :=
  { class_code := "class Foo".data, context_code := .listV ["ctx one".data, "ctx two".data],
    instruction := .noneV, sample := none }

/-- The request refuting C3 as universally stated: its subject code is
itself the example placeholder text, while example and context are both
absent. -/
def cexReqC3 : GenerationRequest :=
  { class_code := examplePlaceholder, context_code := .noneV,
    instruction := .noneV, sample := none }

/-- A concrete request used to witness the amended C3. -/
def witReqC3 : GenerationRequest :=
  { class_code := "class Foo".data, context_code := .noneV,
    instruction := .noneV, sample := none }

/-! Backend adapters (`test_generator/generators.py`) and the backend
selector (`Generator.__get_generator` together with the `ModelType` enum in
`test_generator/generator.py`).  Network and process effects are
externalized: an adapter's `generate` is modelled as a function of the
response data the external service would return. -/

/-- The Python exceptions raised by the embedded code paths. -/
inductive PyError where
  | valueError : Str → PyError
  | runtimeError : Str → PyError
  | codeNotFound : Str → PyError
deriving DecidableEq

/-- The `ModelType` enumeration (current revision): `SONNET = "sonnet3.5"`,
`GPT4 = "gpt4o"`, `OLLAMA = "ollama"`. -/
inductive ModelType where
  | SONNET | GPT4 | OLLAMA
deriving DecidableEq

/-- The string value of each `ModelType` member. -/
def ModelType.value : ModelType → Str
  | .SONNET => "sonnet3.5".data
  | .GPT4 => "gpt4o".data
  | .OLLAMA => "ollama".data

/-- The enum constructor `ModelType(s)` used by the CLI's argument parser:
an unknown value raises `ValueError` (modelled with the offending value as
payload). -/
def ModelType.ofValue (s : Str) : Except PyError ModelType :=
  if s = "sonnet3.5".data then .ok .SONNET
  else if s = "gpt4o".data then .ok .GPT4
  else if s = "ollama".data then .ok .OLLAMA
  else .error (.valueError s)

/-- The environment credentials read by `Settings`
(`test_generator/settings.py`). -/
structure Settings where
  ANTHROPIC_API_KEY : Str
  OPENAI_API_KEY : Str
  OPENAI_ORG_ID : Str

/-- The three concrete backend adapter variants, carrying the
configuration their constructors receive. -/
inductive TestGeneratorInstance where
  | anthropicG : (api_key : Str) → TestGeneratorInstance
  | openaiG : (api_key organization : Str) → TestGeneratorInstance
  | ollamaG : (model : Str) → TestGeneratorInstance
deriving DecidableEq

/-- `Generator.__get_generator`: the if/elif chain selecting the adapter
(the source tests `ModelType.OLLAMA` twice in one condition; the final
`else: raise ValueError(...)` is unreachable for genuine `ModelType`
values since the enumeration is closed).  `OllamaTestGenerator()` defaults
its model to `codestral`. -/
def getGenerator (st : Settings) (m : ModelType) : Except PyError TestGeneratorInstance :=
  if m = .SONNET then .ok (.anthropicG st.ANTHROPIC_API_KEY)
  else if m = .GPT4 then .ok (.openaiG st.OPENAI_API_KEY st.OPENAI_ORG_ID)
  else if m = .OLLAMA ∨ m = .OLLAMA then .ok (.ollamaG "codestral".data)
  else .error (.valueError "Unsupported model".data)

/-- Concrete settings used by selector witnesses. -/
def witSettings : Settings :=
  { ANTHROPIC_API_KEY := "ak".data, OPENAI_API_KEY := "ok".data, OPENAI_ORG_ID := "org".data }

/-- A content block of an Anthropic API response: a `type` tag and the
text payload. -/
structure ContentBlock where
  type : Str
  text : Str
deriving DecidableEq

/-- `AnthropicTestGenerator.__extract_code_from_message`
(`test_generator/generators.py`): return the stripped text of the first
block whose `type` is `"text"`; raise `CodeNotFoundException` if there is
none. -/
def extractCodeFromMessage : List ContentBlock → Except PyError Str
  | [] => .error (.codeNotFound "No code found in the API response.".data)
  | b :: bs =>
    if b.type = "text".data then .ok (pyStrip b.text)
    else extractCodeFromMessage bs

/-- `AnthropicTestGenerator.generate` (current revision): the network call
is externalized, so the function acts on the `message.content` list the
API returned and applies `__extract_code_from_message` to it; a
`CodeNotFoundException` propagates to the caller (the current revision
has no `except` clause around the extraction). -/
def AnthropicTestGenerator.generate (content : List ContentBlock) : Except PyError Str :=
  extractCodeFromMessage content

/-- Response content used to witness C5: a non-text block followed by a
text block with padded text. -/
def witBlocksText : List ContentBlock :=
  [{ type := "tool_use".data, text := "ignored".data },
   { type := "text".data, text := "  generated tests  ".data }]

/-- Response content with no text-typed block, witnessing the
`CodeNotFound` branch of C5. -/
def witBlocksNoText : List ContentBlock :=
  [{ type := "tool_use".data, text := "ignored".data }]

/-- The local environment seen by `OllamaTestGenerator`: the names of the
currently running processes (`psutil.process_iter`), whether the `ollama`
package is importable (`importlib.util.find_spec`), and the response text
the local daemon would return for a model and prompt. -/
structure OllamaEnv where
  processNames : List Str
  installed : Bool
  respond : Str → Str → Str

/-- `OllamaTestGenerator.__is_ollama_running`: some running process is
named `ollama`. -/
def isOllamaRunning (processNames : List Str) : Bool :=
  processNames.any (fun nm => nm == "ollama".data)

/-- `OllamaTestGenerator.generate` (current revision): check the daemon is
running, then that the client library is installed, and only then invoke
`ollama.generate`; the second component counts how many times the
underlying `ollama.generate` call happened. -/
def OllamaTestGenerator.generate (env : OllamaEnv) (model prompt : Str) :
    Except PyError Str × Nat :=
  if !isOllamaRunning env.processNames then
    (.error (.runtimeError "Ollama is not running. Please start Ollama.".data), 0)
  else if !env.installed then
    (.error (.runtimeError "Ollama is not installed. Please install it using: pip install ollama.".data), 0)
  else
    (.ok (env.respond model prompt), 1)

/-- A local environment with no `ollama` process, witnessing C6. -/
def witOllamaEnv : OllamaEnv :=
  { processNames := ["python".data, "bash".data], installed := true,
    respond := fun _ _ => "unreachable".data }

/-! The output stage of `TestProcessor` (`test_generator/test_processor.py`):
`__output_result` writes to the output file when a path was given, falling
back to `__copy_to_clipboard` on write failure or when no path was given,
which itself falls back to printing the raw result on clipboard failure. -/

/-- Which of the fallible output operations would succeed. -/
structure OutputEnv where
  writeOk : Bool
  clipboardOk : Bool

/-- The visible effects of the output stage: content written to the output
file, placed on the clipboard, or dumped raw to the console. -/
structure OutputEffects where
  fileWritten : Option Str
  clipboardSet : Option Str
  printedRaw : Option Str
deriving DecidableEq

/-- `TestProcessor.__copy_to_clipboard`: try `pyperclip.copy`; on any
exception print the raw content to the console instead. -/
def copyToClipboard (env : OutputEnv) (content : Str) : OutputEffects :=
  if env.clipboardOk then
    { fileWritten := none, clipboardSet := some content, printedRaw := none }
  else
    { fileWritten := none, clipboardSet := none, printedRaw := some content }

/-- `TestProcessor.__output_result`: write to the output path if one was
given, falling back to the clipboard on an `IOError`; with no output path
go straight to the clipboard. -/
def outputResult (env : OutputEnv) (outputPath : Option Str) (content : Str) : OutputEffects :=
  match outputPath with
  | some _ =>
    if env.writeOk then
      { fileWritten := some content, clipboardSet := none, printedRaw := none }
    else
      copyToClipboard env content
  | none => copyToClipboard env content

/-! The file pipeline: `TestProcessor.process` (`test_generator/test_processor.py`)
and `main` (`test_generator/main.py`).  File-system reads, the existence
pre-check, and the backend call are externalized into a `PipelineEnv`;
the trace records the observable events the spec talks about (adapter
construction, backend invocation, error panels, output effects). -/

/-- Outcome of `open(path)` for one path. -/
inductive ReadOutcome where
  | found : Str → ReadOutcome
  | notFound : ReadOutcome
  | ioError : Str → ReadOutcome
deriving DecidableEq

/-- `TestProcessor.__read_file`: returns the file content, or the empty
string after printing a warning panel for `FileNotFoundError` or an error
panel for `IOError` (the Boolean records that a warning or error panel
was printed). -/
def readFile : ReadOutcome → Str × Bool
  | .found c => (c, false)
  | .notFound => ([], true)
  | .ioError _ => ([], true)

/-- The external world of one CLI invocation. -/
structure PipelineEnv where
  inputExists : Bool
  fs : Str → ReadOutcome
  settings : Settings
  backend : Str → Except Str Str
  writeOk : Bool
  clipboardOk : Bool

/-- The parsed command-line arguments handed to the pipeline (after
`argparse` succeeded; `main` turns absent `--instruction` into `None`). -/
structure Args where
  input_path : Str
  output : Option Str
  model : ModelType
  example_path : Option Str
  context_paths : List Str
  instruction : Option (List Str)

/-- `TestProcessor.__read_context_files`: read every context path and keep
only the non-empty contents, in order. -/
def readContextFiles (fs : Str → ReadOutcome) (paths : List Str) : List Str :=
  (paths.map (fun p => (readFile (fs p)).1)).filter (fun c => !c.isEmpty)

/-- The subject content: `self.__read_file(self.input_path)`. -/
def subjectContent (env : PipelineEnv) (args : Args) : Str :=
  (readFile (env.fs args.input_path)).1

/-- The example content: read when a path was given, else `""`. -/
def exampleContent (env : PipelineEnv) (args : Args) : Str :=
  match args.example_path with
  | some p => (readFile (env.fs p)).1
  | none => []

/-- `context_contents = self.__read_context_files() if self.context_paths
else None`. -/
def contextContents (env : PipelineEnv) (args : Args) : Option (List Str) :=
  if args.context_paths.isEmpty then none else some (readContextFiles env.fs args.context_paths)

/-- The `Generator.__init__` arguments assembled by
`TestProcessor.__process_with_llm`. -/
def buildRequest (env : PipelineEnv) (args : Args) : GenerationRequest :=
  { class_code := subjectContent env args,
    context_code :=
      match contextContents env args with
      | none => .noneV
      | some l => .listV l,
    instruction :=
      match args.instruction with
      | none => .noneV
      | some l => .listV l,
    sample := some (exampleContent env args) }

/-- Observable events of one `TestProcessor.process` run. -/
structure ProcTrace where
  adapter : Option TestGeneratorInstance
  constructed : Nat
  invoked : Nat
  subject : Option Str
  promptSent : Option Str
  errorReported : Bool
  output : Option OutputEffects

/-- `TestProcessor.process`: read the input, example and context files
(read failures degrade to empty content), construct the `Generator`
(which selects and constructs the backend adapter), send the rendered
prompt to the backend, and output the result; any exception raised by the
adapter selection or the backend call is caught by the surrounding
`try/except`, which prints an error panel instead of propagating. -/
def TestProcessor.process (env : PipelineEnv) (args : Args) : ProcTrace :=
  match getGenerator env.settings args.model with
  | .error _ =>
    { adapter := none, constructed := 0, invoked := 0,
      subject := some (subjectContent env args), promptSent := none,
      errorReported := true, output := none }
  | .ok g =>
    match env.backend (createPrompt (buildRequest env args)) with
    | .ok result =>
      { adapter := some g, constructed := 1, invoked := 1,
        subject := some (subjectContent env args),
        promptSent := some (createPrompt (buildRequest env args)),
        errorReported := false,
        output := some (outputResult ⟨env.writeOk, env.clipboardOk⟩ args.output result) }
    | .error _ =>
      { adapter := some g, constructed := 1, invoked := 1,
        subject := some (subjectContent env args),
        promptSent := some (createPrompt (buildRequest env args)),
        errorReported := true, output := none }

/-- How one invocation of `main` ends. -/
inductive MainResult where
  | exited : Nat → MainResult
  | completed : ProcTrace → MainResult

/-- Adapters constructed during the whole invocation. -/
def MainResult.constructedCount : MainResult → Nat
  | .exited _ => 0
  | .completed t => t.constructed

/-- Backend `generate` invocations during the whole invocation. -/
def MainResult.invokedCount : MainResult → Nat
  | .exited _ => 0
  | .completed t => t.invoked

/-- The explicit exit code, if the process called `sys.exit`. -/
def MainResult.exitCode : MainResult → Option Nat
  | .exited c => some c
  | .completed _ => none

/-- `main` (`test_generator/main.py`) after argument parsing: if the input
path does not exist, print an error panel and `sys.exit(1)` — this check
runs before the `TestProcessor` is created; otherwise run the pipeline.
The surrounding `try/except` catches `SystemExit` and any other exception
raised inside the `with Progress(...)` block and only prints a message, so
no other exit path exists after the pre-check passes. -/
def mainRun (env : PipelineEnv) (args : Args) : MainResult :=
  if !env.inputExists then .exited 1
  else .completed (TestProcessor.process env args)

/-- A pipeline environment whose required input file is missing. -/
def witEnvMissing : PipelineEnv :=
  { inputExists := false, fs := fun _ => .notFound, settings := witSettings,
    backend := fun _ => .ok "TESTS_OK".data, writeOk := true, clipboardOk := true }

/-- Arguments used by the pipeline witnesses. -/
def witArgs : Args :=
  { input_path := "input.py".data, output := none, model := .SONNET,
    example_path := none, context_paths := [], instruction := none }

/-- Environment for the C9 witness: the input exists but the backend call
raises. -/
def witEnvBackendFail : PipelineEnv :=
  { inputExists := true, fs := fun _ => .found "class Foo".data, settings := witSettings,
    backend := fun _ => .error "API down".data, writeOk := true, clipboardOk := true }

/-! Theorems.  The sanity examples check the string primitives and
`textwrap.dedent` model on concrete inputs; the named theorems settle
the claims about the embedded program. -/

example : leadsWith "ab".data "abc".data = true := by decide

example : leadsWith "ac".data "abc".data = false := by decide

example : endsWith "bc".data "abc".data = true := by decide

example : countOccs "aa".data "aaa".data = 2 := by decide

example : pyJoin "\n".data ["a".data, "b".data] = "a\nb".data := by decide

example : pyStrip "  x y\n".data = "x y".data := by decide

example : splitNl "a\nb".data = ["a".data, "b".data] := by decide

example : joinNl ["a".data, "b".data] = "a\nb".data := by decide

example : pyDedent "\n  a\n   b\n \n".data = "\na\n b\n\n".data := by decide

example : pyDedent "\n  a\nb\n".data = "\n  a\nb\n".data := by decide

example : processInput (.listV ["a".data, "b".data]) "\n".data contextPlaceholder = "a\nb".data := by decide

example : processInput (.listV []) "\n".data contextPlaceholder = contextPlaceholder := by decide

example : processInput (.strV "  ".data) ", ".data instructionPlaceholder = instructionPlaceholder := by decide

example : processInput (.strV " x".data) ", ".data instructionPlaceholder = " x".data := by decide

/-! Substring-counting infrastructure used to reason about placeholder
occurrences in the rendered prompt. -/

theorem leadsWith_iff {n s : Str} : leadsWith n s = true ↔ ∃ t, s = n ++ t := by
  induction n generalizing s with
  | nil => simp [leadsWith]
  | cons a n ih =>
    cases s with
    | nil => simp [leadsWith]
    | cons b s =>
      simp only [leadsWith, Bool.and_eq_true, beq_iff_eq, ih, List.cons_append]
      constructor
      · rintro ⟨rfl, t, rfl⟩; exact ⟨t, rfl⟩
      · rintro ⟨t, h⟩
        cases h
        exact ⟨rfl, t, rfl⟩

theorem leadsWith_refl (l : Str) : leadsWith l l = true :=
  leadsWith_iff.mpr ⟨[], by simp⟩

theorem leadsWith_append {n s : Str} (t : Str) (h : leadsWith n s = true) :
    leadsWith n (s ++ t) = true := by
  obtain ⟨u, rfl⟩ := leadsWith_iff.mp h
  exact leadsWith_iff.mpr ⟨u ++ t, by simp⟩

theorem endsWith_iff {p a : Str} : endsWith p a = true ↔ ∃ u, a = u ++ p := by
  unfold endsWith
  rw [leadsWith_iff]
  constructor
  · rintro ⟨t, h⟩
    refine ⟨t.reverse, ?_⟩
    have := congrArg List.reverse h
    simpa using this
  · rintro ⟨u, rfl⟩
    exact ⟨u.reverse, by simp⟩

theorem endsWith_self (l : Str) : endsWith l l = true :=
  endsWith_iff.mpr ⟨[], rfl⟩

theorem endsWith_cons {p a : Str} (c : Char) (h : endsWith p a = true) :
    endsWith p (c :: a) = true := by
  obtain ⟨u, rfl⟩ := endsWith_iff.mp h
  exact endsWith_iff.mpr ⟨c :: u, rfl⟩

theorem leadsWith_append_eq {n a b : Str} (ha : a ≠ [])
    (h : NoSpan n a b) : leadsWith n (a ++ b) = leadsWith n a := by
  cases hla : leadsWith n a with
  | true =>
    obtain ⟨t, rfl⟩ := leadsWith_iff.mp hla
    exact leadsWith_iff.mpr ⟨t ++ b, by simp⟩
  | false =>
    by_contra hcon
    have hab : leadsWith n (a ++ b) = true := by
      cases hx : leadsWith n (a ++ b) with
      | true => rfl
      | false => exact absurd (hla ▸ hx) hcon
    obtain ⟨t, ht⟩ := leadsWith_iff.mp hab
    rcases Nat.lt_or_ge a.length n.length with hlt | hle
    case inr =>
      have htake : a.take n.length = n := by
        have h1 := congrArg (List.take n.length) ht
        rwa [List.take_append_of_le_length hle, List.take_left] at h1
      have : leadsWith n a = true := by
        refine leadsWith_iff.mpr ⟨a.drop n.length, ?_⟩
        conv_lhs => rw [← List.take_append_drop n.length a]
        rw [htake]
      simp [this] at hla
    case inl =>
      have hk0 : 0 < a.length := List.length_pos.mpr ha
      have htake : n.take a.length = a := by
        have h1 := congrArg (List.take a.length) ht
        rw [List.take_left, List.take_append_of_le_length (Nat.le_of_lt hlt)] at h1
        exact h1.symm
      have hdrop : b = n.drop a.length ++ t := by
        have h1 := congrArg (List.drop a.length) ht
        rwa [List.drop_left, List.drop_append_of_le_length (Nat.le_of_lt hlt)] at h1
      refine h a.length hk0 hlt ⟨?_, leadsWith_iff.mpr ⟨t, hdrop⟩⟩
      rw [htake]
      exact endsWith_self a

theorem countOccs_append {n : Str} (a b : Str) (h : NoSpan n a b) :
    countOccs n (a ++ b) = countOccs n a + countOccs n b := by
  induction a with
  | nil =>
    simp [countOccs]
  | cons c a ih =>
    have h' : NoSpan n a b := by
      intro k hk1 hk2 ⟨he, hl⟩
      exact h k hk1 hk2 ⟨endsWith_cons c he, hl⟩
    have hkey : leadsWith n (c :: a ++ b) = leadsWith n (c :: a) :=
      leadsWith_append_eq (by simp) h
    show (if leadsWith n (c :: a ++ b) then 1 else 0) + countOccs n (a ++ b) = _
    rw [hkey, ih h']
    show _ = (if leadsWith n (c :: a) then 1 else 0) + countOccs n a + countOccs n b
    omega

theorem noSpan_of_head_nl {n : Str} (hnl : '\n' ∉ n) (a b : Str)
    (hb : b.head? = some '\n') : NoSpan n a b := by
  intro k hk1 hk2 ⟨_, hl⟩
  cases hd : n.drop k with
  | nil =>
    have : n.length - k = 0 := by simpa using congrArg List.length hd
    omega
  | cons d ds =>
    cases b with
    | nil => rw [hd] at hl; simp [leadsWith] at hl
    | cons e es =>
      have hde : d = e := by
        rw [hd] at hl
        simp only [leadsWith, Bool.and_eq_true, beq_iff_eq] at hl
        exact hl.1
      have he : e = '\n' := by simpa using hb
      have : d ∈ n := List.mem_of_mem_drop (hd ▸ List.mem_cons_self d ds)
      rw [hde, he] at this
      exact hnl this

theorem noSpan_of_chk {n a : Str} (h : noSpanChk n a = true) (b : Str) :
    NoSpan n a b := by
  intro k hk1 hk2 ⟨he, _⟩
  have hk := List.all_eq_true.mp h k (List.mem_range.mpr hk2)
  simp only [Bool.or_eq_true, beq_iff_eq, Bool.not_eq_true'] at hk
  rcases hk with hk | hk
  · omega
  · rw [he] at hk; cases hk

theorem endsWith_append_of_le {p b : Str} (a : Str) (h : p.length ≤ b.length) :
    endsWith p (a ++ b) = endsWith p b := by
  cases hb : endsWith p b with
  | true =>
    obtain ⟨u, rfl⟩ := endsWith_iff.mp hb
    exact endsWith_iff.mpr ⟨a ++ u, by simp⟩
  | false =>
    by_contra hcon
    have hab : endsWith p (a ++ b) = true := by
      cases hx : endsWith p (a ++ b) with
      | true => rfl
      | false => exact absurd (hb ▸ hx) hcon
    obtain ⟨u, hu⟩ := endsWith_iff.mp hab
    have hlen : a.length ≤ u.length := by
      have hl := congrArg List.length hu
      simp only [List.length_append] at hl
      omega
    have hb' : endsWith p b = true := by
      refine endsWith_iff.mpr ⟨u.drop a.length, ?_⟩
      have h1 := congrArg (List.drop a.length) hu
      rwa [List.drop_left, List.drop_append_of_le_length hlen] at h1
    rw [hb] at hb'; cases hb'

theorem noSpan_append_left {n b c : Str} (a : Str) (h : NoSpan n b c)
    (hlen : n.length ≤ b.length + 1) : NoSpan n (a ++ b) c := by
  intro k hk1 hk2 ⟨he, hl⟩
  have hk : (n.take k).length ≤ b.length := by
    simp only [List.length_take]
    omega
  rw [endsWith_append_of_le a hk] at he
  exact h k hk1 hk2 ⟨he, hl⟩

theorem countOccs_append_nl {n : Str} (a b : Str) (hnl : '\n' ∉ n)
    (ha : a.getLast? = some '\n') :
    countOccs n (a ++ b) = countOccs n a + countOccs n b := by
  refine countOccs_append a b ?_
  intro k hk1 hk2 ⟨he, _⟩
  obtain ⟨u, hu⟩ := endsWith_iff.mp he
  have htk : (n.take k) ≠ [] := by
    intro hnil
    have := congrArg List.length hnil
    simp only [List.length_take, List.length_nil] at this
    omega
  obtain ⟨x, hx⟩ := Option.isSome_iff_exists.mp (List.getLast?_isSome.mpr htk)
  have hxa : a.getLast? = some x := by
    rw [hu, List.getLast?_append, hx]
    rfl
  have hxn : x = '\n' := by
    rw [ha] at hxa
    exact (Option.some_inj.mp hxa).symm
  have : x ∈ n := List.take_subset k n (List.mem_of_getLast?_eq_some hx)
  rw [hxn] at this
  exact hnl this

theorem splitNl_ne_nil (s : Str) : splitNl s ≠ [] := by
  cases s with
  | nil => simp [splitNl]
  | cons c s =>
    unfold splitNl
    by_cases hc : c = '\n'
    · simp [hc]
    · simp only [hc, if_false]
      cases splitNl s <;> simp

theorem joinNl_splitNl (s : Str) : joinNl (splitNl s) = s := by
  induction s with
  | nil => rfl
  | cons c s ih =>
    unfold splitNl
    by_cases hc : c = '\n'
    · subst hc
      simp only [if_pos rfl]
      cases hs : splitNl s with
      | nil => exact absurd hs (splitNl_ne_nil s)
      | cons l ls =>
        show joinNl ([] :: l :: ls) = '\n' :: s
        show [] ++ '\n' :: joinNl (l :: ls) = '\n' :: s
        rw [hs] at ih
        simp [ih]
    · simp only [hc, if_false]
      cases hs : splitNl s with
      | nil => exact absurd hs (splitNl_ne_nil s)
      | cons l ls =>
        rw [hs] at ih
        cases ls with
        | nil =>
          show c :: l = c :: s
          simpa [joinNl] using ih
        | cons l' ls' =>
          show (c :: l) ++ '\n' :: joinNl (l' :: ls') = c :: s
          simpa [joinNl] using ih

theorem countOccs_cons_nl {n : Str} (s : Str) (hn : n ≠ []) (hnl : '\n' ∉ n) :
    countOccs n ('\n' :: s) = countOccs n s := by
  show (if leadsWith n ('\n' :: s) then 1 else 0) + countOccs n s = countOccs n s
  cases n with
  | nil => exact absurd rfl hn
  | cons c n' =>
    have hc : (c == '\n') = false := by
      simp only [beq_eq_false_iff_ne, ne_eq]
      intro hcn
      exact hnl (hcn ▸ List.mem_cons_self c n')
    have hfalse : leadsWith (c :: n') ('\n' :: s) = false := by
      simp only [leadsWith, hc, Bool.false_and]
    rw [hfalse]
    simp

theorem countOccs_joinNl {n : Str} (hn : n ≠ []) (hnl : '\n' ∉ n) (ls : List Str) :
    countOccs n (joinNl ls) = (ls.map (countOccs n)).sum := by
  induction ls with
  | nil => simp [joinNl, countOccs]
  | cons l ls ih =>
    cases ls with
    | nil => simp [joinNl]
    | cons l' ls' =>
      show countOccs n (l ++ '\n' :: joinNl (l' :: ls')) = _
      rw [countOccs_append l ('\n' :: joinNl (l' :: ls'))
            (noSpan_of_head_nl hnl l _ rfl),
          countOccs_cons_nl _ hn hnl, ih]
      simp

theorem countOccs_eq_zero_of_indent {c : Char} {n' : Str} (l : Str)
    (hc : isIndentChar c = false) (hl : l.all isIndentChar = true) :
    countOccs (c :: n') l = 0 := by
  induction l with
  | nil => rfl
  | cons d l ih =>
    simp only [List.all_cons, Bool.and_eq_true] at hl
    have hfalse : leadsWith (c :: n') (d :: l) = false := by
      simp only [leadsWith]
      have : (c == d) = false := by
        simp only [beq_eq_false_iff_ne, ne_eq]
        intro h
        rw [h] at hc
        rw [hl.1] at hc
        cases hc
      simp [this]
    show (if leadsWith (c :: n') (d :: l) then 1 else 0) + countOccs (c :: n') l = 0
    rw [hfalse, ih hl.2]
    simp

theorem countOccs_drop_indent {c : Char} {n' : Str} (m l : Str)
    (hc : isIndentChar c = false) (hm : m.all isIndentChar = true)
    (hpre : leadsWith m l = true) :
    countOccs (c :: n') (l.drop m.length) = countOccs (c :: n') l := by
  induction m generalizing l with
  | nil => simp
  | cons d m' ih =>
    simp only [List.all_cons, Bool.and_eq_true] at hm
    cases l with
    | nil => simp [leadsWith] at hpre
    | cons e l' =>
      simp only [leadsWith, Bool.and_eq_true, beq_iff_eq] at hpre
      obtain ⟨rfl, hpre'⟩ := hpre
      show countOccs (c :: n') (l'.drop m'.length) = countOccs (c :: n') (d :: l')
      rw [ih l' hm.2 hpre']
      have hfalse : leadsWith (c :: n') (d :: l') = false := by
        simp only [leadsWith]
        have : (c == d) = false := by
          simp only [beq_eq_false_iff_ne, ne_eq]
          intro h
          rw [h, hm.1] at hc
          cases hc
        simp [this]
      show countOccs (c :: n') l' =
        (if leadsWith (c :: n') (d :: l') then 1 else 0) + countOccs (c :: n') l'
      rw [hfalse]
      simp

theorem mem_commonPfx {c : Char} : ∀ {a b : Str}, c ∈ commonPfx a b → c ∈ a := by
  intro a
  induction a with
  | nil => intro b h; simp [commonPfx] at h
  | cons x a ih =>
    intro b h
    cases b with
    | nil => simp [commonPfx] at h
    | cons y b =>
      simp only [commonPfx] at h
      by_cases hxy : (x == y) = true
      · rw [if_pos hxy] at h
        rcases List.mem_cons.mp h with h | h
        · exact h ▸ List.mem_cons_self x a
        · exact List.mem_cons_of_mem x (ih h)
      · rw [if_neg hxy] at h
        simp at h

theorem foldl_commonPfx_indent {acc : Str} (ms : List Str)
    (hacc : acc.all isIndentChar = true) :
    (ms.foldl commonPfx acc).all isIndentChar = true := by
  induction ms generalizing acc with
  | nil => exact hacc
  | cons m ms ih =>
    refine ih ?_
    rw [List.all_eq_true] at hacc ⊢
    intro c hcm
    exact hacc c (mem_commonPfx hcm)

theorem dedentMargin_all_indent (ls : List Str) :
    (dedentMargin ls).all isIndentChar = true := by
  unfold dedentMargin
  cases h : (ls.filter (fun l => !l.isEmpty)).map leadingWs with
  | nil => rfl
  | cons m ms =>
    refine foldl_commonPfx_indent ms ?_
    have hm : m ∈ (ls.filter (fun l => !l.isEmpty)).map leadingWs := by
      rw [h]; exact List.mem_cons_self m ms
    obtain ⟨l, _, rfl⟩ := List.mem_map.mp hm
    rw [List.all_eq_true]
    intro c hc
    exact List.mem_takeWhile_imp hc

theorem countOccs_blank_dedent {c : Char} {n' : Str} (mg l : Str)
    (hc : isIndentChar c = false) (hmg : mg.all isIndentChar = true) :
    countOccs (c :: n')
      (if leadsWith mg (blankWs l) then (blankWs l).drop mg.length else blankWs l) =
    countOccs (c :: n') l := by
  by_cases hall : l.all isIndentChar = true
  · rw [show blankWs l = [] from if_pos hall]
    have hnil : (if leadsWith mg ([] : Str) then ([] : Str).drop mg.length else ([] : Str)) = [] := by
      cases h : leadsWith mg ([] : Str) <;> simp
    rw [hnil]
    rw [countOccs_eq_zero_of_indent l hc hall]
    rfl
  · rw [show blankWs l = l from if_neg hall]
    by_cases hpre : leadsWith mg l = true
    · rw [if_pos hpre]
      exact countOccs_drop_indent mg l hc hmg hpre
    · rw [if_neg hpre]

/-- `textwrap.dedent` does not change the number of occurrences of a
pattern that contains no newline and does not start with a space or tab:
dedenting only deletes spaces and tabs at line starts, and no occurrence
of such a pattern can overlap the deleted region. -/
theorem countOccs_pyDedent {c : Char} {n' : Str} (s : Str)
    (hc : isIndentChar c = false) (hnl : '\n' ∉ (c :: n')) :
    countOccs (c :: n') (pyDedent s) = countOccs (c :: n') s := by
  have hn : (c :: n') ≠ [] := by simp
  show countOccs (c :: n')
      (joinNl (((splitNl s).map blankWs).map
        (fun l => if leadsWith (dedentMargin ((splitNl s).map blankWs)) l
                  then l.drop (dedentMargin ((splitNl s).map blankWs)).length else l))) = _
  rw [countOccs_joinNl hn hnl]
  conv_rhs => rw [← joinNl_splitNl s, countOccs_joinNl hn hnl]
  rw [List.map_map, List.map_map]
  refine congrArg List.sum (List.map_congr_left ?_)
  intro l _
  exact countOccs_blank_dedent _ l hc (dedentMargin_all_indent _)

theorem head?_append_left {a : Str} (b : Str) {c : Char} (h : a.head? = some c) :
    (a ++ b).head? = some c := by
  cases a with
  | nil => cases h
  | cons x xs => simpa using h

theorem tmplB_head : tmplB.head? = some '\n' := rfl

theorem tmplC_head : tmplC.head? = some '\n' := rfl

theorem tmplD_head : tmplD.head? = some '\n' := rfl

theorem tmplE_head : tmplE.head? = some '\n' := rfl

theorem noSpan_step {n b c : Str} (a : Str) (h : NoSpan n b c ∧ n.length ≤ b.length + 1) :
    NoSpan n (a ++ b) c ∧ n.length ≤ (a ++ b).length + 1 :=
  ⟨noSpan_append_left a h.1 h.2, by simp only [List.length_append]; omega⟩

theorem noSpan_tmplA {n : Str} (b : Str) (hchk : noSpanChk n tmplA6 = true)
    (hlen : n.length ≤ tmplA6.length + 1) : NoSpan n tmplA b :=
  (noSpan_step tmplA1 (noSpan_step tmplA2 (noSpan_step tmplA3 (noSpan_step tmplA4
    (noSpan_step tmplA5 ⟨noSpan_of_chk hchk b, hlen⟩))))).1

set_option maxRecDepth 8000 in
theorem countOccs_tmplA {n : Str} (hnl : '\n' ∉ n) :
    countOccs n tmplA = countOccs n tmplA1 + countOccs n tmplA2 + countOccs n tmplA3 +
      countOccs n tmplA4 + countOccs n tmplA5 + countOccs n tmplA6 := by
  show countOccs n (tmplA1 ++ (tmplA2 ++ (tmplA3 ++ (tmplA4 ++ (tmplA5 ++ tmplA6))))) = _
  rw [countOccs_append_nl _ _ hnl (by decide),
      countOccs_append_nl _ _ hnl (by decide),
      countOccs_append_nl _ _ hnl (by decide),
      countOccs_append_nl _ _ hnl (by decide),
      countOccs_append_nl _ _ hnl (by decide)]
  omega

set_option maxRecDepth 8000 in
theorem countOccs_tmplE {n : Str} (hnl : '\n' ∉ n) :
    countOccs n tmplE = countOccs n tmplE1 + countOccs n tmplE2 + countOccs n tmplE3 := by
  show countOccs n (tmplE1 ++ (tmplE2 ++ tmplE3)) = _
  rw [countOccs_append_nl _ _ hnl (by decide),
      countOccs_append_nl _ _ hnl (by decide)]
  omega

/-- The number of occurrences of a pattern in the pre-dedent prompt body
is the sum of its occurrence counts in the five fixed template pieces and
the four interpolated fields, provided the pattern contains no newline,
no nonempty proper prefix of it ends any of the template pieces that
precede an interpolated field, and it is no longer than the final chunk
of `tmplA`. -/
theorem countOccs_promptBody {n : Str} (hnl : '\n' ∉ n)
    (hA : noSpanChk n tmplA6 = true) (hlenA : n.length ≤ tmplA6.length + 1)
    (hB : noSpanChk n tmplB = true) (hC : noSpanChk n tmplC = true)
    (hD : noSpanChk n tmplD = true) (i cc ct sm : Str) :
    countOccs n (promptBody i cc ct sm) =
      countOccs n tmplA + countOccs n i + countOccs n tmplB + countOccs n cc +
      countOccs n tmplC + countOccs n ct + countOccs n tmplD + countOccs n sm +
      countOccs n tmplE := by
  unfold promptBody
  rw [countOccs_append _ _ (noSpan_tmplA _ hA hlenA),
      countOccs_append _ _ (noSpan_of_head_nl hnl _ _ (head?_append_left _ tmplB_head)),
      countOccs_append _ _ (noSpan_of_chk hB _),
      countOccs_append _ _ (noSpan_of_head_nl hnl _ _ (head?_append_left _ tmplC_head)),
      countOccs_append _ _ (noSpan_of_chk hC _),
      countOccs_append _ _ (noSpan_of_head_nl hnl _ _ (head?_append_left _ tmplD_head)),
      countOccs_append _ _ (noSpan_of_chk hD _),
      countOccs_append _ _ (noSpan_of_head_nl hnl _ _ tmplE_head)]
  omega

theorem countOccs_pyDedent_pat {n : Str} (s : Str) (hg : goodPat n = true)
    (hnl : '\n' ∉ n) : countOccs n (pyDedent s) = countOccs n s := by
  cases n with
  | nil => cases hg
  | cons c n' =>
    have hc : isIndentChar c = false := by
      simp only [goodPat, Bool.not_eq_true'] at hg
      exact hg
    exact countOccs_pyDedent s hc hnl

/-- Occurrences of a pattern in the rendered prompt, split into the nine
segments of the template: the side conditions exclude occurrences that
straddle a segment boundary or overlap dedented indentation. -/
theorem countOccs_createPrompt (n : Str) (r : GenerationRequest)
    (hg : goodPat n = true) (hnl : '\n' ∉ n)
    (hA : noSpanChk n tmplA6 = true) (hlenA : n.length ≤ tmplA6.length + 1)
    (hB : noSpanChk n tmplB = true) (hC : noSpanChk n tmplC = true)
    (hD : noSpanChk n tmplD = true) :
    countOccs n (createPrompt r) =
      countOccs n tmplA + countOccs n (instructionComponent r) + countOccs n tmplB +
      countOccs n r.class_code + countOccs n tmplC + countOccs n (contextComponent r) +
      countOccs n tmplD + countOccs n (sampleComponent r) + countOccs n tmplE := by
  unfold createPrompt
  rw [countOccs_pyDedent_pat _ hg hnl]
  exact countOccs_promptBody hnl hA hlenA hB hC hD _ _ _ _

/-- C1: the prompt builder is deterministic — `Generator.__create_prompt`
is a pure function of the `GenerationRequest`, so rendering the same
request twice yields byte-identical output strings. -/
theorem createPrompt_deterministic (r₁ r₂ : GenerationRequest) (h : r₁ = r₂) :
    createPrompt r₁ = createPrompt r₂ :=
  congrArg createPrompt h

theorem createPrompt_deterministic_witness :
    witReqC1 = witReqC1 ∧ createPrompt witReqC1 = createPrompt witReqC1 :=
  ⟨rfl, createPrompt_deterministic witReqC1 witReqC1 rfl⟩

/-- C2: for a non-empty list of context fragments, the context section of
the rendered prompt is exactly the fragments joined by single newlines in
input order — `self.context_code` equals `"\n".join(fragments)` and the
rendered prompt is the dedented template with exactly that string in the
context slot. -/
theorem context_section_joined (r : GenerationRequest) (l : List Str)
    (hctx : r.context_code = .listV l) (hne : l ≠ []) :
    contextComponent r = pyJoin "\n".data l ∧
    createPrompt r = pyDedent (tmplA ++ (instructionComponent r ++ (tmplB ++
      (r.class_code ++ (tmplC ++ (pyJoin "\n".data l ++ (tmplD ++
      (sampleComponent r ++ tmplE)))))))) := by
  have h1 : contextComponent r = pyJoin "\n".data l := by
    unfold contextComponent
    rw [hctx]
    simp only [processInput, List.isEmpty_iff]
    rw [if_neg hne]
  refine ⟨h1, ?_⟩
  unfold createPrompt promptBody
  rw [h1]

theorem context_section_joined_witness :
    witReqC2.context_code = .listV ["ctx one".data, "ctx two".data] ∧
    (["ctx one".data, "ctx two".data] : List Str) ≠ [] ∧
    (contextComponent witReqC2 = pyJoin "\n".data ["ctx one".data, "ctx two".data] ∧
     createPrompt witReqC2 = pyDedent (tmplA ++ (instructionComponent witReqC2 ++ (tmplB ++
       (witReqC2.class_code ++ (tmplC ++ (pyJoin "\n".data ["ctx one".data, "ctx two".data] ++
       (tmplD ++ (sampleComponent witReqC2 ++ tmplE))))))))) :=
  ⟨rfl, by decide, context_section_joined witReqC2 _ rfl (by decide)⟩

set_option maxRecDepth 8000 in
/-- C3 counterexample: with example and context both absent but the
subject code equal to the string `No example provided.`, the rendered
prompt contains that placeholder twice, not exactly once. -/
theorem example_placeholder_twice :
    cexReqC3.sample = none ∧ cexReqC3.context_code = .noneV ∧
    countOccs examplePlaceholder (createPrompt cexReqC3) = 2 := by
  refine ⟨rfl, rfl, ?_⟩
  rw [countOccs_createPrompt examplePlaceholder cexReqC3 (by decide) (by decide)
        (by decide) (by decide) (by decide) (by decide) (by decide),
      countOccs_tmplA (by decide), countOccs_tmplE (by decide)]
  decide

set_option maxRecDepth 8000 in
/-- C3 (amended): if example and context are both absent, and neither the
subject code nor the processed instruction text contains the placeholder
strings, then the rendered prompt contains `No example provided.` exactly
once and `No contextual code provided.` exactly once. -/
theorem placeholders_exactly_once (r : GenerationRequest)
    (hs : r.sample = none) (hctx : r.context_code = .noneV)
    (h1 : countOccs examplePlaceholder r.class_code = 0)
    (h2 : countOccs examplePlaceholder (instructionComponent r) = 0)
    (h3 : countOccs contextPlaceholder r.class_code = 0)
    (h4 : countOccs contextPlaceholder (instructionComponent r) = 0) :
    countOccs examplePlaceholder (createPrompt r) = 1 ∧
    countOccs contextPlaceholder (createPrompt r) = 1 := by
  have hcc : contextComponent r = contextPlaceholder := by
    unfold contextComponent
    rw [hctx]
    rfl
  have hsm : sampleComponent r = examplePlaceholder := by
    unfold sampleComponent
    rw [hs]
  constructor
  · rw [countOccs_createPrompt examplePlaceholder r (by decide) (by decide)
          (by decide) (by decide) (by decide) (by decide) (by decide),
        countOccs_tmplA (by decide), countOccs_tmplE (by decide), hcc, hsm, h1, h2]
    decide
  · rw [countOccs_createPrompt contextPlaceholder r (by decide) (by decide)
          (by decide) (by decide) (by decide) (by decide) (by decide),
        countOccs_tmplA (by decide), countOccs_tmplE (by decide), hcc, hsm, h3, h4]
    decide

theorem placeholders_exactly_once_witness :
    witReqC3.sample = none ∧ witReqC3.context_code = .noneV ∧
    countOccs examplePlaceholder witReqC3.class_code = 0 ∧
    countOccs examplePlaceholder (instructionComponent witReqC3) = 0 ∧
    countOccs contextPlaceholder witReqC3.class_code = 0 ∧
    countOccs contextPlaceholder (instructionComponent witReqC3) = 0 ∧
    (countOccs examplePlaceholder (createPrompt witReqC3) = 1 ∧
     countOccs contextPlaceholder (createPrompt witReqC3) = 1) :=
  ⟨rfl, rfl, by decide, by decide, by decide, by decide,
   placeholders_exactly_once witReqC3 rfl rfl (by decide) (by decide) (by decide) (by decide)⟩

/-- C4: the backend selector is total on the closed set of identifiers —
each of the three enumerated identifiers parses to its member and maps to
exactly one adapter variant — and any unsupported identifier fails with a
`ValueError` from the enum constructor, so no adapter value is ever
produced for it. -/
theorem backend_selector_total (st : Settings) :
    (ModelType.ofValue "sonnet3.5".data = .ok .SONNET ∧
     ModelType.ofValue "gpt4o".data = .ok .GPT4 ∧
     ModelType.ofValue "ollama".data = .ok .OLLAMA) ∧
    (getGenerator st .SONNET = .ok (.anthropicG st.ANTHROPIC_API_KEY) ∧
     getGenerator st .GPT4 = .ok (.openaiG st.OPENAI_API_KEY st.OPENAI_ORG_ID) ∧
     getGenerator st .OLLAMA = .ok (.ollamaG "codestral".data)) ∧
    (∀ s : Str, (∀ m : ModelType, ModelType.value m ≠ s) →
      ModelType.ofValue s = .error (.valueError s)) := by
  refine ⟨⟨rfl, rfl, rfl⟩, ⟨rfl, rfl, rfl⟩, ?_⟩
  intro s hs
  unfold ModelType.ofValue
  rw [if_neg (fun h => hs .SONNET h.symm), if_neg (fun h => hs .GPT4 h.symm),
      if_neg (fun h => hs .OLLAMA h.symm)]

theorem backend_selector_total_witness :
    (∀ m : ModelType, ModelType.value m ≠ "gpt5".data) ∧
    ModelType.ofValue "gpt5".data = .error (.valueError "gpt5".data) :=
  ⟨fun m => by cases m <;> decide,
   (backend_selector_total witSettings).2.2 "gpt5".data (fun m => by cases m <;> decide)⟩

/-- C5: the Anthropic adapter returns the stripped text of the first
text-typed content block of the response, and when the response has no
text-typed block it signals `CodeNotFound` instead of returning a
string. -/
theorem anthropic_generate_first_text (content : List ContentBlock) :
    ((∀ b ∈ content, b.type ≠ "text".data) →
      AnthropicTestGenerator.generate content =
        .error (.codeNotFound "No code found in the API response.".data)) ∧
    (∀ b, content.find? (fun b => b.type == "text".data) = some b →
      AnthropicTestGenerator.generate content = .ok (pyStrip b.text)) := by
  unfold AnthropicTestGenerator.generate
  induction content with
  | nil =>
    constructor
    · intro _
      rfl
    · intro b hb
      simp [List.find?] at hb
  | cons c cs ih =>
    constructor
    · intro hall
      have hc : c.type ≠ "text".data := hall c (List.mem_cons_self c cs)
      show (if c.type = "text".data then _ else extractCodeFromMessage cs) = _
      rw [if_neg hc]
      exact ih.1 (fun b hb => hall b (List.mem_cons_of_mem c hb))
    · intro b hb
      show (if c.type = "text".data then Except.ok (pyStrip c.text)
            else extractCodeFromMessage cs) = _
      by_cases hc : c.type = "text".data
      · rw [if_pos hc]
        rw [List.find?_cons_of_pos _ (by simpa using hc)] at hb
        cases hb
        rfl
      · rw [if_neg hc]
        rw [List.find?_cons_of_neg _ (by simpa using hc)] at hb
        exact ih.2 b hb

theorem anthropic_generate_first_text_witness :
    ((∀ b ∈ witBlocksNoText, b.type ≠ "text".data) ∧
     AnthropicTestGenerator.generate witBlocksNoText =
       .error (.codeNotFound "No code found in the API response.".data)) ∧
    (witBlocksText.find? (fun b => b.type == "text".data) =
       some { type := "text".data, text := "  generated tests  ".data } ∧
     AnthropicTestGenerator.generate witBlocksText =
       .ok (pyStrip "  generated tests  ".data)) :=
  ⟨⟨by decide, (anthropic_generate_first_text witBlocksNoText).1 (by decide)⟩,
   ⟨by decide, (anthropic_generate_first_text witBlocksText).2
      { type := "text".data, text := "  generated tests  ".data } (by decide)⟩⟩

/-- C6: whenever the daemon liveness check fails or the client library is
not importable, the local adapter fails fast with one of its two
descriptive `RuntimeError` messages and the underlying `ollama.generate`
call is never invoked. -/
theorem ollama_fails_fast (env : OllamaEnv) (model prompt : Str)
    (h : isOllamaRunning env.processNames = false ∨ env.installed = false) :
    (OllamaTestGenerator.generate env model prompt).2 = 0 ∧
    ∃ msg, (OllamaTestGenerator.generate env model prompt).1 = .error (.runtimeError msg) ∧
      (msg = "Ollama is not running. Please start Ollama.".data ∨
       msg = "Ollama is not installed. Please install it using: pip install ollama.".data) := by
  unfold OllamaTestGenerator.generate
  by_cases hrun : isOllamaRunning env.processNames
  · have hins : env.installed = false := by
      rcases h with h | h
      · rw [hrun] at h; cases h
      · exact h
    rw [hrun, hins]
    exact ⟨rfl, _, rfl, Or.inr rfl⟩
  · rw [Bool.not_eq_true] at hrun
    rw [hrun]
    exact ⟨rfl, _, rfl, Or.inl rfl⟩

theorem ollama_fails_fast_witness :
    (isOllamaRunning witOllamaEnv.processNames = false ∨ witOllamaEnv.installed = false) ∧
    ((OllamaTestGenerator.generate witOllamaEnv "codestral".data "prompt".data).2 = 0 ∧
     ∃ msg, (OllamaTestGenerator.generate witOllamaEnv "codestral".data "prompt".data).1 =
         .error (.runtimeError msg) ∧
       (msg = "Ollama is not running. Please start Ollama.".data ∨
        msg = "Ollama is not installed. Please install it using: pip install ollama.".data)) :=
  ⟨Or.inl (by decide),
   ollama_fails_fast witOllamaEnv "codestral".data "prompt".data (Or.inl (by decide))⟩

/-- C7: the output stage never silently loses the generated content — the
file write, clipboard, console chain delivers the content at the first
step that succeeds, and in every case the content ends up in at least one
of the three sinks. -/
theorem output_never_lost (env : OutputEnv) (p : Option Str) (content : Str) :
    (∀ q, p = some q → env.writeOk = true →
      (outputResult env p content).fileWritten = some content) ∧
    (∀ q, p = some q → env.writeOk = false → env.clipboardOk = true →
      (outputResult env p content).clipboardSet = some content) ∧
    (p = none → env.clipboardOk = true →
      (outputResult env p content).clipboardSet = some content) ∧
    ((p = none ∨ env.writeOk = false) → env.clipboardOk = false →
      (outputResult env p content).printedRaw = some content) ∧
    ((outputResult env p content).fileWritten = some content ∨
     (outputResult env p content).clipboardSet = some content ∨
     (outputResult env p content).printedRaw = some content) := by
  cases p <;> cases hw : env.writeOk <;> cases hcl : env.clipboardOk <;>
    simp [outputResult, copyToClipboard, hw, hcl]

/-- C7 witness: with an output path whose write fails and a working
clipboard, the content is delivered via the clipboard. -/
theorem output_never_lost_witness :
    ((some "out.txt".data : Option Str) = some "out.txt".data ∧
     (OutputEnv.mk false true).writeOk = false ∧ (OutputEnv.mk false true).clipboardOk = true) ∧
    (outputResult (OutputEnv.mk false true) (some "out.txt".data) "TESTS_OK".data).clipboardSet =
      some "TESTS_OK".data :=
  ⟨⟨rfl, rfl, rfl⟩,
   (output_never_lost (OutputEnv.mk false true) (some "out.txt".data) "TESTS_OK".data).2.1
     "out.txt".data rfl rfl rfl⟩

theorem getGenerator_ok (st : Settings) (m : ModelType) :
    ∃ g, getGenerator st m = .ok g := by
  cases m with
  | SONNET => exact ⟨_, rfl⟩
  | GPT4 => exact ⟨_, rfl⟩
  | OLLAMA => exact ⟨_, rfl⟩

/-- C8: when the required input file does not exist, `main` prints an
error and exits with code 1 before the pipeline starts, so no backend
adapter is ever constructed and the backend is never invoked. -/
theorem missing_input_halts (env : PipelineEnv) (args : Args)
    (h : env.inputExists = false) :
    mainRun env args = .exited 1 ∧
    (mainRun env args).exitCode = some 1 ∧
    (mainRun env args).constructedCount = 0 ∧
    (mainRun env args).invokedCount = 0 := by
  simp [mainRun, h, MainResult.exitCode, MainResult.constructedCount,
        MainResult.invokedCount]

theorem missing_input_halts_witness :
    witEnvMissing.inputExists = false ∧
    (mainRun witEnvMissing witArgs = .exited 1 ∧
     (mainRun witEnvMissing witArgs).exitCode = some 1 ∧
     (mainRun witEnvMissing witArgs).constructedCount = 0 ∧
     (mainRun witEnvMissing witArgs).invokedCount = 0) :=
  ⟨rfl, missing_input_halts witEnvMissing witArgs rfl⟩

/-- C9: the process exits nonzero exactly when the required input file
does not exist; whenever the pre-check passes, the run completes without
an exit code, and if the backend call raises, the exception is caught and
reported through a visible error panel. -/
theorem exit_nonzero_iff_missing (env : PipelineEnv) (args : Args) :
    ((∃ c, (mainRun env args).exitCode = some c ∧ c ≠ 0) ↔ env.inputExists = false) ∧
    (env.inputExists = true →
      ∃ t p, mainRun env args = .completed t ∧ (mainRun env args).exitCode = none ∧
        t.promptSent = some p ∧
        (∀ e, env.backend p = .error e → t.errorReported = true)) := by
  by_cases h : env.inputExists
  · constructor
    · simp [mainRun, h, MainResult.exitCode]
    · intro _
      obtain ⟨g, hg⟩ := getGenerator_ok env.settings args.model
      refine ⟨TestProcessor.process env args, createPrompt (buildRequest env args),
        by simp [mainRun, h], by simp [mainRun, h, MainResult.exitCode], ?_, ?_⟩
      · unfold TestProcessor.process
        rw [hg]
        cases hb : env.backend (createPrompt (buildRequest env args)) <;> rfl
      · intro e he
        unfold TestProcessor.process
        rw [hg]
        cases hb : env.backend (createPrompt (buildRequest env args))
        · rfl
        · rw [hb] at he
          cases he
  · rw [Bool.not_eq_true] at h
    constructor
    · simp [mainRun, h, MainResult.exitCode]
    · intro ht
      rw [ht] at h
      cases h

theorem exit_nonzero_iff_missing_witness :
    witEnvBackendFail.inputExists = true ∧
    (∃ t p, mainRun witEnvBackendFail witArgs = .completed t ∧
      (mainRun witEnvBackendFail witArgs).exitCode = none ∧
      t.promptSent = some p ∧
      (∀ e, witEnvBackendFail.backend p = .error e → t.errorReported = true)) :=
  ⟨rfl, (exit_nonzero_iff_missing witEnvBackendFail witArgs).2 rfl⟩

/-- C10: inside the pipeline a read failure of the required input file is
handled like any optional file — `__read_file` returns the empty string
after a warning for both `FileNotFoundError` and `IOError`, and `process`
still constructs the backend adapter and invokes it with empty subject
code; only the CLI pre-check of C8 halts on a missing input. -/
theorem input_read_failure_not_fatal (env : PipelineEnv) (args : Args)
    (ho : env.fs args.input_path = .notFound ∨ ∃ m, env.fs args.input_path = .ioError m) :
    readFile (env.fs args.input_path) = ([], true) ∧
    (TestProcessor.process env args).constructed = 1 ∧
    (TestProcessor.process env args).invoked = 1 ∧
    (TestProcessor.process env args).subject = some [] := by
  have hrf : readFile (env.fs args.input_path) = ([], true) := by
    rcases ho with h | ⟨m, h⟩ <;> rw [h] <;> rfl
  have hsub : subjectContent env args = [] := by
    unfold subjectContent
    rw [hrf]
  obtain ⟨g, hg⟩ := getGenerator_ok env.settings args.model
  refine ⟨hrf, ?_, ?_, ?_⟩ <;> unfold TestProcessor.process <;> rw [hg] <;>
    cases hb : env.backend (createPrompt (buildRequest env args)) <;>
    simp [hsub]

theorem input_read_failure_not_fatal_witness :
    (witEnvMissing.fs witArgs.input_path = .notFound ∨
      ∃ m, witEnvMissing.fs witArgs.input_path = .ioError m) ∧
    (readFile (witEnvMissing.fs witArgs.input_path) = ([], true) ∧
     (TestProcessor.process witEnvMissing witArgs).constructed = 1 ∧
     (TestProcessor.process witEnvMissing witArgs).invoked = 1 ∧
     (TestProcessor.process witEnvMissing witArgs).subject = some []) :=
  ⟨Or.inl rfl, input_read_failure_not_fatal witEnvMissing witArgs (Or.inl rfl)⟩
